import Mathlib

/-!
Verification of the Continuum extension's Turn-Delivery Queue and
Escalation Coordinator, modelled shallowly from the TypeScript source:
the background service worker (background.ts), the content script, and
the sidebar coordinator (EscalationCard.tsx, Sidebar component).
-/

namespace Continuum

/-! Turn-Delivery Queue (background.ts)

`analyzeTurn` (background.ts lines 84-133) performs one fetch attempt for a
turn; on failure it waits 2000 * (retries + 1) milliseconds and recurses
while retries < MAX_RETRIES, otherwise the turn is dropped.
`handleNewTurns` (lines 57-79) chains each incoming batch onto the
conversation's promise chain, and the batch body awaits each turn in order.
We embed this as a trace-producing function: the oracle `ok t r` tells
whether the attempt with retry counter `r` for turn `t` succeeds. -/

/-- MAX_RETRIES constant (background.ts line 11). -/
def MAX_RETRIES : Nat := 3

/-- The base delay constant 2000 in the retry setTimeout (line 129). -/
def RETRY_BASE_DELAY : Nat := 2000

/-- Observable events of a delivery run: a fetch attempt for a turn with its
retry counter, a success, a retry wait of a given duration, or the drop of a
turn after retry exhaustion. -/
inductive Ev where
  | submit (turn attempt : Nat)
  | success (turn : Nat)
  | wait (turn ms : Nat)
  | dropped (turn : Nat)
  deriving DecidableEq, Repr

/-- The turn an event concerns. -/
def Ev.turn : Ev → Nat
  | .submit t _ => t
  | .success t => t
  | .wait t _ => t
  | .dropped t => t

/-- Trace of analyzeTurn (background.ts 84-133): issue the attempt; on
success stop; on failure retry after 2000 * (retries + 1) ms while
retries < MAX_RETRIES; otherwise drop the turn. -/
def analyzeTurn (ok : Nat → Nat → Bool) (turn : Nat) (retries : Nat) : List Ev :=
  if ok turn retries then
    [Ev.submit turn retries, Ev.success turn]
  else if retries < MAX_RETRIES then
    Ev.submit turn retries :: Ev.wait turn (RETRY_BASE_DELAY * (retries + 1)) ::
      analyzeTurn ok turn (retries + 1)
  else
    [Ev.submit turn retries, Ev.dropped turn]
  termination_by MAX_RETRIES + 1 - retries

/-- Body of one queued batch (background.ts 62-67): the for-loop awaits
analyzeTurn for each turn of the batch in order. -/
def processBatch (ok : Nat → Nat → Bool) (turns : List Nat) : List Ev :=
  turns.flatMap (fun t => analyzeTurn ok t 0)

/-- The per-conversation promise chain (background.ts 61-69): every new
batch is chained behind the previous one, so batches for one conversation
run strictly one after another in enqueue order. -/
def processConversation (ok : Nat → Nat → Bool) (batches : List (List Nat)) : List Ev :=
  batches.flatMap (processBatch ok)

/-- The first (retries = 0) submission attempts appearing in a trace, in
trace order. -/
def firstAttempts (evs : List Ev) : List Nat :=
  evs.filterMap fun e =>
    match e with
    | Ev.submit t 0 => some t
    | _ => none

lemma analyzeTurn_turn (ok : Nat → Nat → Bool) (t r : Nat) :
    ∀ e ∈ analyzeTurn ok t r, e.turn = t := by
  refine analyzeTurn.induct ok t
    (fun r => ∀ e ∈ analyzeTurn ok t r, Ev.turn e = t) ?_ ?_ ?_ r
  · intro x h1 e he
    rw [analyzeTurn, if_pos h1] at he
    rcases List.mem_cons.mp he with h | h
    · simp [h, Ev.turn]
    · rcases List.mem_cons.mp h with h' | h'
      · simp [h', Ev.turn]
      · simp at h'
  · intro x h1 h2 ih e he
    rw [analyzeTurn, if_neg h1, if_pos h2] at he
    rcases List.mem_cons.mp he with h | h
    · simp [h, Ev.turn]
    · rcases List.mem_cons.mp h with h' | h'
      · simp [h', Ev.turn]
      · exact ih e h'
  · intro x h1 h2 e he
    rw [analyzeTurn, if_neg h1, if_neg h2] at he
    rcases List.mem_cons.mp he with h | h
    · simp [h, Ev.turn]
    · rcases List.mem_cons.mp h with h' | h'
      · simp [h', Ev.turn]
      · simp at h'

lemma analyzeTurn_terminal (ok : Nat → Nat → Bool) (t r : Nat) :
    ∃ l e, analyzeTurn ok t r = l ++ [e] ∧
      (e = Ev.success t ∨ e = Ev.dropped t) := by
  refine analyzeTurn.induct ok t
    (fun r => ∃ l e, analyzeTurn ok t r = l ++ [e] ∧
      (e = Ev.success t ∨ e = Ev.dropped t)) ?_ ?_ ?_ r
  · intro x h1
    exact ⟨[Ev.submit t x], Ev.success t, by rw [analyzeTurn, if_pos h1]; rfl, Or.inl rfl⟩
  · intro x h1 h2 ih
    obtain ⟨l, e, hl, he⟩ := ih
    refine ⟨Ev.submit t x :: Ev.wait t (RETRY_BASE_DELAY * (x + 1)) :: l, e, ?_, he⟩
    rw [analyzeTurn, if_neg h1, if_pos h2, hl]
    rfl
  · intro x h1 h2
    exact ⟨[Ev.submit t x], Ev.dropped t,
      by rw [analyzeTurn, if_neg h1, if_neg h2]; rfl, Or.inr rfl⟩

lemma firstAttempts_append (l1 l2 : List Ev) :
    firstAttempts (l1 ++ l2) = firstAttempts l1 ++ firstAttempts l2 := by
  simp [firstAttempts, List.filterMap_append]

lemma firstAttempts_analyzeTurn_pos (ok : Nat → Nat → Bool) (t r : Nat) :
    0 < r → firstAttempts (analyzeTurn ok t r) = [] := by
  refine analyzeTurn.induct ok t
    (fun r => 0 < r → firstAttempts (analyzeTurn ok t r) = []) ?_ ?_ ?_ r
  · intro x h1 hx
    obtain ⟨x', rfl⟩ : ∃ x', x = x' + 1 := ⟨x - 1, by omega⟩
    rw [analyzeTurn, if_pos h1]
    rfl
  · intro x h1 h2 ih hx
    obtain ⟨x', rfl⟩ : ∃ x', x = x' + 1 := ⟨x - 1, by omega⟩
    rw [analyzeTurn, if_neg h1, if_pos h2]
    have := ih (Nat.succ_pos _)
    simp only [firstAttempts, List.filterMap_cons] at this ⊢
    exact this
  · intro x h1 h2 hx
    obtain ⟨x', rfl⟩ : ∃ x', x = x' + 1 := ⟨x - 1, by omega⟩
    rw [analyzeTurn, if_neg h1, if_neg h2]
    rfl

lemma firstAttempts_analyzeTurn (ok : Nat → Nat → Bool) (t : Nat) :
    firstAttempts (analyzeTurn ok t 0) = [t] := by
  rw [analyzeTurn]
  by_cases h1 : ok t 0
  · rw [if_pos h1]
    rfl
  · have h2 : (0 : Nat) < MAX_RETRIES := by simp [MAX_RETRIES]
    rw [if_neg h1, if_pos h2]
    have := firstAttempts_analyzeTurn_pos ok t 1 Nat.one_pos
    simp only [firstAttempts, List.filterMap_cons] at this ⊢
    simp [this]

lemma firstAttempts_processBatch (ok : Nat → Nat → Bool) (turns : List Nat) :
    firstAttempts (processBatch ok turns) = turns := by
  induction turns with
  | nil => simp [processBatch, firstAttempts]
  | cons t ts ih =>
    simp only [processBatch, List.flatMap_cons] at ih ⊢
    rw [firstAttempts_append, firstAttempts_analyzeTurn, ih]
    rfl

lemma processConversation_flatten (ok : Nat → Nat → Bool) (batches : List (List Nat)) :
    processConversation ok batches
      = batches.flatten.flatMap (fun t => analyzeTurn ok t 0) := by
  induction batches with
  | nil => rfl
  | cons b bs ih =>
    simp only [processConversation, List.flatMap_cons, List.flatten_cons,
      List.flatMap_append] at ih ⊢
    rw [ih]
    rfl

/-- C1: turns enqueued for one conversation are submitted to the backend in
exactly enqueue order. The trace of the promise chain is the concatenation,
in enqueue order, of the per-turn traces; each first submission appears
exactly once and in order; every event of a turn's trace concerns only that
turn (no interleaving or parallelism); and each per-turn trace ends with
that turn's terminal outcome (success or drop), so the next turn's
submission starts only after the previous turn's terminal outcome. -/
theorem fifo_per_conversation (ok : Nat → Nat → Bool) (batches : List (List Nat)) :
    processConversation ok batches
      = batches.flatten.flatMap (fun t => analyzeTurn ok t 0)
    ∧ firstAttempts (processConversation ok batches) = batches.flatten
    ∧ (∀ t, ∀ e ∈ analyzeTurn ok t 0, e.turn = t)
    ∧ (∀ t, ∃ l e, analyzeTurn ok t 0 = l ++ [e]
        ∧ (e = Ev.success t ∨ e = Ev.dropped t)) := by
  refine ⟨processConversation_flatten ok batches, ?_,
    fun t => analyzeTurn_turn ok t 0, fun t => analyzeTurn_terminal ok t 0⟩
  rw [processConversation_flatten, ← processBatch]
  exact firstAttempts_processBatch ok batches.flatten

/-- Witness for C1 at two concrete batches and the always-succeeding
oracle. -/
theorem fifo_per_conversation_witness :
    firstAttempts (processConversation (fun _ _ => true) [[1, 2], [3]])
      = [1, 2, 3]
    ∧ Ev.turn (Ev.submit 3 0) = 3 :=
  ⟨(fifo_per_conversation (fun _ _ => true) [[1, 2], [3]]).2.1,
   (fifo_per_conversation (fun _ _ => true) [[1, 2], [3]]).2.2.1 3
     (Ev.submit 3 0) (by simp [analyzeTurn])⟩

/-- C2: a turn that fails on every attempt is submitted 4 times in total
(the initial attempt plus exactly 3 retries), with waits of 2000 ms,
4000 ms and 6000 ms before the respective retries, then dropped; and within
a batch the next turn's trace follows immediately after the drop. -/
theorem bounded_retry (ok : Nat → Nat → Bool) (t t' : Nat)
    (hfail : ∀ r, ok t r = false) :
    analyzeTurn ok t 0 =
      [Ev.submit t 0, Ev.wait t 2000,
       Ev.submit t 1, Ev.wait t 4000,
       Ev.submit t 2, Ev.wait t 6000,
       Ev.submit t 3, Ev.dropped t]
    ∧ processBatch ok [t, t'] = analyzeTurn ok t 0 ++ analyzeTurn ok t' 0 := by
  constructor
  · rw [analyzeTurn, analyzeTurn, analyzeTurn, analyzeTurn]
    simp [hfail, MAX_RETRIES, RETRY_BASE_DELAY]
  · simp [processBatch]

/-- Witness for C2 at the all-failing oracle and turns 7, 8. -/
theorem bounded_retry_witness :
    analyzeTurn (fun _ _ => false) 7 0 =
      [Ev.submit 7 0, Ev.wait 7 2000,
       Ev.submit 7 1, Ev.wait 7 4000,
       Ev.submit 7 2, Ev.wait 7 6000,
       Ev.submit 7 3, Ev.dropped 7]
    ∧ processBatch (fun _ _ => false) [7, 8]
        = analyzeTurn (fun _ _ => false) 7 0 ++ analyzeTurn (fun _ _ => false) 8 0 :=
  bounded_retry (fun _ _ => false) 7 8 (fun _ => rfl)

/-! Enqueue scheduling (background.ts onMessage listener, lines 33-40,
and handleNewTurns, lines 57-79)

handleNewTurns builds the batch work with prev.then(...). In JavaScript a
then-callback on an already-resolved promise is not run synchronously: it
is put on the microtask queue and runs at the microtask checkpoint of the
current event-loop task, after the task's synchronous code finishes and
before control returns to the event loop. We model one event-loop task
together with its microtask queue. -/

/-- Observable scheduling events of the NEW_TURNS task. -/
inductive JsEv where
  | enqueueReturned
  | listenerReturned
  | firstFetchIssued (turn : Nat)
  | taskYield
  deriving DecidableEq, Repr

/-- One step of synchronous JavaScript code: emit an observable event, or
put a callback on the microtask queue (what prom.then does when prom is
already resolved). -/
inductive SyncStep where
  | emit (e : JsEv)
  | scheduleMicro (callback : List SyncStep)
  deriving Repr

/-- Run one event-loop task: execute the synchronous code, then drain the
microtask queue in FIFO order, and finally yield back to the event loop
(the first point at which the host may suspend the worker between tasks).
Fuel-indexed to stay structurally recursive; none means the fuel ran out. -/
def runTask : Nat → List SyncStep → List (List SyncStep) → Option (List JsEv)
  | 0, _, _ => none
  | _ + 1, [], [] => some [JsEv.taskYield]
  | fuel + 1, [], cb :: q => runTask fuel cb q
  | fuel + 1, SyncStep.emit e :: rest, q => (runTask fuel rest q).map (e :: ·)
  | fuel + 1, SyncStep.scheduleMicro cb :: rest, q => runTask fuel rest (q ++ [cb])

/-- The queued batch body (background.ts 62-67) up to its first suspension
point: for the first turn of the batch, analyzeTurn issues its fetch and
then awaits the response. -/
def batchBodyStart (turns : List Nat) : List SyncStep :=
  match turns with
  | [] => []
  | tu :: _ => [SyncStep.emit (JsEv.firstFetchIssued tu)]

/-- The synchronous code of the NEW_TURNS task when no delivery is running
for the conversation (processingQueues has no entry, so prev is
Promise.resolve()): prev.then(...) schedules the batch body as a
microtask, handleNewTurns returns the chained promise to the listener, and
the listener returns true. -/
def newTurnsTask (turns : List Nat) : List SyncStep :=
  [SyncStep.scheduleMicro (batchBodyStart turns),
   SyncStep.emit JsEv.enqueueReturned,
   SyncStep.emit JsEv.listenerReturned]

/-- C9, counterexample: for the concrete batch [1, 2] enqueued while no
delivery is running, the task trace is enqueueReturned (position 0),
listenerReturned (position 1), firstFetchIssued 1 (position 2), taskYield
(position 3): the enqueue call returns control to its caller — and the
listener even finishes — strictly before the first network attempt is
issued, refuting the claim that the call does not return before the first
attempt. -/
theorem enqueue_returns_before_first_fetch :
    runTask 8 (newTurnsTask [1, 2]) []
      = some [JsEv.enqueueReturned, JsEv.listenerReturned,
              JsEv.firstFetchIssued 1, JsEv.taskYield]
    ∧ (runTask 8 (newTurnsTask [1, 2]) []).map (List.take 2)
      = some [JsEv.enqueueReturned, JsEv.listenerReturned] := ⟨rfl, rfl⟩

/-- C9, amended: the enqueue call itself returns before the first attempt
is issued, but the first network attempt for the batch is still issued
within the same event-loop task, at its microtask checkpoint, before the
task yields to the event loop — i.e. before any suspension-prone
scheduling point such as a timer or a new task. -/
theorem enqueue_first_fetch_same_task (t : Nat) (ts : List Nat) :
    runTask 8 (newTurnsTask (t :: ts)) []
      = some [JsEv.enqueueReturned, JsEv.listenerReturned,
              JsEv.firstFetchIssued t, JsEv.taskYield] := rfl

/-! Content-script extraction and dedup (content script)

The content script keeps two module-level variables: currentConversationId
and a single watermark lastSeenTurnId (not one per conversation).
extractTurnsFromDOM assigns ids by 1-based DOM position and skips ids at or
below the watermark; sendTurnsToBackground raises the watermark to the
maximum sent id; onConversationChanged resets the watermark to 0 on every
identity change and re-scans the page. -/

/-- Module-level state of the content script. -/
structure ContentState where
  currentConversationId : String
  lastSeenTurnId : Nat
  deriving DecidableEq, Repr

/-- extractTurnsFromDOM: ids are 1-based DOM positions 1..domCount; a turn
with id ≤ lastSeenTurnId is skipped. -/
def extractTurnsFromDOM (s : ContentState) (domCount : Nat) : List Nat :=
  ((List.range domCount).map (· + 1)).filter (fun i => s.lastSeenTurnId < i)

/-- sendTurnsToBackground: when the list is nonempty, a NEW_TURNS message
carrying the current conversation id is sent for the turns, and
lastSeenTurnId becomes the maximum sent id. -/
def sendTurnsToBackground (s : ContentState) (turns : List Nat) :
    ContentState × List (String × Nat) :=
  match turns with
  | [] => (s, [])
  | t :: ts =>
    ({ s with lastSeenTurnId := (t :: ts).foldl max 0 },
     (t :: ts).map (fun i => (s.currentConversationId, i)))

/-- One debounced observation (observeDOM firing): extract the new turns
and send them if there are any. -/
def observeStep (s : ContentState) (domCount : Nat) :
    ContentState × List (String × Nat) :=
  sendTurnsToBackground s (extractTurnsFromDOM s domCount)

/-- onConversationChanged: a same-id signal is ignored; an identity change
resets lastSeenTurnId to 0 and, after the settle delay, re-extracts and
sends the new page's turns. -/
def onConversationChanged (s : ContentState) (newId : String) (domCount : Nat) :
    ContentState × List (String × Nat) :=
  if newId = s.currentConversationId then (s, [])
  else observeStep { currentConversationId := newId, lastSeenTurnId := 0 } domCount

/-- External events driving the content script. -/
inductive PageEvent where
  | observe (domCount : Nat)
  | navigate (newId : String) (domCount : Nat)
  deriving Repr

/-- Run a sequence of page events, collecting every (conversationId, turn
id) submission sent to the background queue, in order. -/
def runContent (s : ContentState) : List PageEvent → ContentState × List (String × Nat)
  | [] => (s, [])
  | e :: es =>
    let step := match e with
      | PageEvent.observe n => observeStep s n
      | PageEvent.navigate cid n => onConversationChanged s cid n
    let rest := runContent step.1 es
    (rest.1, step.2 ++ rest.2)

/-- C6, counterexample: observe conversation a with 3 turns (ids 1..3
accepted), navigate to b, navigate back to a whose DOM still has the same
3 turns. The watermark was reset to 0 on each change, so turns 1..3 of a —
all with id ≤ 3, the highest id already accepted for a — are extracted and
submitted a second time: enqueuing them was not free of observable effect. -/
theorem dedup_counterexample :
    (runContent ⟨"a", 0⟩
        [PageEvent.observe 3, PageEvent.navigate "b" 0,
         PageEvent.navigate "a" 3]).2
      = [("a", 1), ("a", 2), ("a", 3), ("a", 1), ("a", 2), ("a", 3)]
    ∧ ((runContent ⟨"a", 0⟩
        [PageEvent.observe 3, PageEvent.navigate "b" 0,
         PageEvent.navigate "a" 3]).2.filter (fun p => p = ("a", 3))).length = 2 := by
  constructor <;> rfl

/-- C6, amended: as long as the active conversation has not changed since
those turns were accepted, observing turns whose ids are all at or below
the watermark (the highest id accepted since this conversation became
active) has no observable effect: no submission is issued and the state is
unchanged. The watermark is a single global variable reset to 0 on every
conversation change, so the guarantee does not span a switch away and
back. -/
theorem dedup_same_conversation (s : ContentState) (n : Nat)
    (h : n ≤ s.lastSeenTurnId) :
    observeStep s n = (s, []) := by
  have hext : extractTurnsFromDOM s n = [] := by
    rw [extractTurnsFromDOM, List.filter_eq_nil_iff]
    intro a ha
    rcases List.mem_map.mp ha with ⟨i, hi, rfl⟩
    have := List.mem_range.mp hi
    simp only [decide_eq_true_eq]
    omega
  rw [observeStep, hext]
  rfl

/-- Witness for C6's amended theorem at a concrete state. -/
theorem dedup_same_conversation_witness :
    observeStep ⟨"a", 3⟩ 3 = (⟨"a", 3⟩, []) :=
  dedup_same_conversation ⟨"a", 3⟩ 3 (by decide)

/-! Escalation Coordinator (EscalationCard.tsx, Sidebar component)

The Sidebar component keeps the metrics snapshot and the escalation state
machine in React state, with two polling effects:
- the metrics effect (deps [conversationId], lines 1060-1114) polls every
  METRICS_POLL_INTERVAL ms and performs the edge-triggered idle → pending
  transition;
- the K2 effect (deps [conversationId, escalationState], lines 1117-1193)
  runs only while the state is escalated_pending: it polls every
  K2_POLL_INTERVAL ms, installs a K2_TIMEOUT one-shot, and its cleanup
  sets its isMounted flag false and clears both timers.
We embed each mounted effect instance as a generation number; a callback
or response delivery carries the generation of the instance that created
it, and the isMounted / cleared-timer guards make events of a stale
generation no-ops. A state transition and the re-render that re-runs the
effects is one atomic step (the source's single-threaded discipline). -/

/-- Poll cadence constants (EscalationCard.tsx lines 968-970). -/
def METRICS_POLL_INTERVAL : Nat := 1500

/-- K2 poll interval while escalated (line 969). -/
def K2_POLL_INTERVAL : Nat := 2000

/-- K2 verification timeout (line 970). -/
def K2_TIMEOUT : Nat := 90000

/-- Escalation lifecycle states (line 973). -/
inductive EscalationState where
  | idle
  | escalated_pending
  | k2_confirmed
  | k2_overridden
  | k2_failed
  deriving DecidableEq, Repr

/-- Sidebar component state: React state and refs, plus the generations of
the two mounted polling-effect instances (none = not mounted). -/
structure SidebarState where
  conversationId : String
  prevConversationId : String
  driftScore : ℚ
  driftVelocity : ℚ
  isRecovering : Bool
  activeCommitments : Nat
  contradictions : Nat
  escalationState : EscalationState
  escalationReason : String
  k2Confidence : ℚ
  k2Explanation : String
  escalationStartTime : Nat
  metricsGen : Option Nat
  k2Gen : Option Nat
  nextGen : Nat
  deriving DecidableEq, Repr

/-- Body of a successful metrics response (types.ts MetricsResponse),
flattened to the fields the Sidebar reads. -/
structure MetricsResponse where
  cumulative_drift_score : ℚ
  drift_velocity : ℚ
  is_recovering : Bool
  commitments_active : Nat
  contradictions_count : Nat
  total_escalations : Nat
  deriving DecidableEq, Repr

/-- Body of a successful K2 status response (types.ts K2StatusResponse).
The wire values are arbitrary strings at runtime, so status and
result_type are kept as optional strings. -/
structure K2StatusResponse where
  status : Option String
  result_type : Option String
  k2_confidence : Option ℚ
  k2_explanation : Option String
  deriving DecidableEq, Repr

/-- JavaScript x || 0 on an optional number (absent and 0 both give 0). -/
def jsOrZero : Option ℚ → ℚ
  | some x => x
  | none => 0

/-- JavaScript s || d on an optional string (absent and "" both give d). -/
def jsOrString (o : Option String) (d : String) : String :=
  match o with
  | some s => if s = "" then d else s
  | none => d

/-- Events delivered to the Sidebar by the event loop: a metrics poll
result (none = fetch failure or non-ok status), a K2 poll result, the K2
timeout callback, or a navigation signal with the new conversation id.
Poll results and timer callbacks carry the generation of the effect
instance whose closure or timer produced them. -/
inductive SidebarEvent where
  | metricsResult (g : Nat) (r : Option MetricsResponse) (now : Nat)
  | k2Result (g : Nat) (r : Option K2StatusResponse)
  | k2TimeoutFire (g : Nat)
  | urlChanged (cid : String)
  deriving Repr

/-- pollMetrics body (lines 1078-1096): store the snapshot fields, then
perform the edge-triggered transition if total_escalations > 0 while the
current state (read through escalationStateRef) is idle. -/
def applyMetrics (m : MetricsResponse) (now : Nat) (s : SidebarState) : SidebarState :=
  let s1 := { s with
    driftScore := m.cumulative_drift_score,
    driftVelocity := m.drift_velocity,
    isRecovering := m.is_recovering,
    activeCommitments := m.commitments_active,
    contradictions := m.contradictions_count }
  if 0 < m.total_escalations ∧ s1.escalationState = EscalationState.idle then
    { s1 with
      escalationState := EscalationState.escalated_pending,
      escalationReason := "Cumulative Drift > Threshold",
      escalationStartTime := now }
  else s1

/-- pollK2 status dispatch (lines 1146-1164): completed + confirmed and
completed + overridden are terminal; status failed is terminal; completed
with any other result_type, status pending, and anything else change
nothing. -/
def applyK2 (r : K2StatusResponse) (s : SidebarState) : SidebarState :=
  if r.status = some "completed" then
    if r.result_type = some "confirmed" then
      { s with
        escalationState := EscalationState.k2_confirmed,
        k2Confidence := jsOrZero r.k2_confidence,
        k2Explanation :=
          jsOrString r.k2_explanation "Contradiction confirmed by K2 reasoning" }
    else if r.result_type = some "overridden" then
      { s with
        escalationState := EscalationState.k2_overridden,
        k2Explanation :=
          jsOrString r.k2_explanation
            "Heuristic false positive - no actual contradiction" }
    else s
  else if r.status = some "failed" then
    { s with
      escalationState := EscalationState.k2_failed,
      k2Explanation := "K2 reasoning failed. Heuristic result retained." }
  else s

/-- Conversation-change reset effect (lines 1043-1057): when the rendered
conversationId differs from prevConversationIdRef (and is nonempty), every
snapshot and escalation field is reset and the ref is updated. -/
def resetForConversation (s : SidebarState) : SidebarState :=
  if s.conversationId = "" ∨ s.conversationId = s.prevConversationId then s
  else
    { s with
      prevConversationId := s.conversationId,
      driftScore := 0,
      driftVelocity := 0,
      isRecovering := false,
      activeCommitments := 0,
      contradictions := 0,
      escalationState := EscalationState.idle,
      escalationReason := "",
      k2Confidence := 0,
      k2Explanation := "" }

/-- Effect reconciliation on re-render: each polling effect is cleaned up
and remounted exactly when its dependency list changed. The metrics effect
(deps [conversationId]) remounts with a fresh generation whenever the
conversation changed; the K2 effect (deps [conversationId,
escalationState]) is cleaned up whenever either changed, and a fresh
instance is mounted only if its body's mount condition (nonempty id and
state escalated_pending) holds. Cleanup of an instance clears its interval
and timeout and drops its generation, so no handle of a disposed instance
remains. -/
def reconcile (old s : SidebarState) : SidebarState :=
  let s1 :=
    if s.conversationId = old.conversationId then s
    else if s.conversationId = "" then
      { s with metricsGen := none }
    else
      { s with metricsGen := some s.nextGen, nextGen := s.nextGen + 1 }
  if s.conversationId = old.conversationId
      ∧ s.escalationState = old.escalationState then
    s1
  else if ¬ s1.conversationId = ""
      ∧ s1.escalationState = EscalationState.escalated_pending then
    { s1 with k2Gen := some s1.nextGen, nextGen := s1.nextGen + 1 }
  else
    { s1 with k2Gen := none }

/-- One atomic step of the Sidebar: deliver an event, apply the handler if
the carried generation is still the mounted one (the isMounted and
cleared-timer guards), and reconcile the effects with the new state. -/
def sidebarStep (s : SidebarState) (e : SidebarEvent) : SidebarState :=
  match e with
  | SidebarEvent.metricsResult g r now =>
    if s.metricsGen = some g then
      match r with
      | none => s
      | some m => reconcile s (applyMetrics m now s)
    else s
  | SidebarEvent.k2Result g r =>
    if s.k2Gen = some g then
      match r with
      | none => s
      | some k => reconcile s (applyK2 k s)
    else s
  | SidebarEvent.k2TimeoutFire g =>
    if s.k2Gen = some g then
      reconcile s
        { s with
          escalationState := EscalationState.k2_failed,
          k2Explanation := "K2 reasoning timed out. Heuristic result retained." }
    else s
  | SidebarEvent.urlChanged cid =>
    if cid = s.conversationId then s
    else reconcile s (resetForConversation { s with conversationId := cid })

/-- Reachability invariant of the Sidebar: a mounted K2 instance exists
only while the state is escalated_pending for a nonempty conversation, and
prevConversationIdRef agrees with the rendered conversationId. -/
def WellFormed (s : SidebarState) : Prop :=
  (s.k2Gen.isSome →
    (s.escalationState = EscalationState.escalated_pending
      ∧ ¬ s.conversationId = ""))
  ∧ s.prevConversationId = s.conversationId

/-- Sidebar state right after mounting for a conversation id: zero-valued
snapshot, idle, metrics effect mounted as generation 0. -/
def initSidebar (cid : String) : SidebarState :=
  { conversationId := cid,
    prevConversationId := cid,
    driftScore := 0,
    driftVelocity := 0,
    isRecovering := false,
    activeCommitments := 0,
    contradictions := 0,
    escalationState := EscalationState.idle,
    escalationReason := "",
    k2Confidence := 0,
    k2Explanation := "",
    escalationStartTime := 0,
    metricsGen := some 0,
    k2Gen := none,
    nextGen := 1 }

/-- Run a sequence of Sidebar events. -/
def runSidebar (s : SidebarState) (es : List SidebarEvent) : SidebarState :=
  es.foldl sidebarStep s

/-- Number of steps of a run that enter escalated_pending. -/
def pendingEntries : SidebarState → List SidebarEvent → Nat
  | _, [] => 0
  | s, e :: es =>
    let s' := sidebarStep s e
    (if s.escalationState ≠ EscalationState.escalated_pending
        ∧ s'.escalationState = EscalationState.escalated_pending
      then 1 else 0) + pendingEntries s' es

/-- A metrics response whose only nonzero field is total_escalations. -/
def escOnly (n : Nat) : MetricsResponse :=
  { cumulative_drift_score := 0,
    drift_velocity := 0,
    is_recovering := false,
    commitments_active := 0,
    contradictions_count := 0,
    total_escalations := n }

/-- A stream of successful metrics polls, delivered to the generation-0
metrics instance, carrying the given escalation counts. -/
def escStream (ns : List Nat) : List SidebarEvent :=
  ns.map (fun n => SidebarEvent.metricsResult 0 (some (escOnly n)) 0)

/-- What a polling effect installs on mount: an immediate poll call, the
interval period of the repeating poll, and an optional one-shot timeout. -/
structure EffectTimers where
  immediatePoll : Bool
  pollEvery : Option Nat
  timeoutAfter : Option Nat
  deriving DecidableEq, Repr

/-- The metrics effect (lines 1104-1113): pollMetrics() immediately, then
setInterval(pollMetrics, METRICS_POLL_INTERVAL); no timeout. -/
def metricsMount : EffectTimers :=
  { immediatePoll := true,
    pollEvery := some METRICS_POLL_INTERVAL,
    timeoutAfter := none }

/-- The K2 effect (lines 1172-1185): pollK2() immediately, then
setInterval(pollK2, K2_POLL_INTERVAL) and setTimeout(..., K2_TIMEOUT). -/
def k2Mount : EffectTimers :=
  { immediatePoll := true,
    pollEvery := some K2_POLL_INTERVAL,
    timeoutAfter := some K2_TIMEOUT }

/-- Time of the k-th poll execution of an effect mounted at time t: the
immediate call at t, then the k-th interval firing. -/
def pollTimes (m : EffectTimers) (t : Nat) : Nat → Option Nat
  | 0 => if m.immediatePoll then some t else none
  | k + 1 => m.pollEvery.map (fun p => t + p * (k + 1))

lemma reconcile_preserves (old s : SidebarState) :
    (reconcile old s).conversationId = s.conversationId
    ∧ (reconcile old s).prevConversationId = s.prevConversationId
    ∧ (reconcile old s).driftScore = s.driftScore
    ∧ (reconcile old s).driftVelocity = s.driftVelocity
    ∧ (reconcile old s).isRecovering = s.isRecovering
    ∧ (reconcile old s).activeCommitments = s.activeCommitments
    ∧ (reconcile old s).contradictions = s.contradictions
    ∧ (reconcile old s).escalationState = s.escalationState
    ∧ (reconcile old s).escalationReason = s.escalationReason
    ∧ (reconcile old s).k2Confidence = s.k2Confidence
    ∧ (reconcile old s).k2Explanation = s.k2Explanation
    ∧ (reconcile old s).escalationStartTime = s.escalationStartTime := by
  simp only [reconcile]
  split_ifs <;> simp_all

lemma reconcile_unchanged (old s : SidebarState)
    (h1 : s.conversationId = old.conversationId)
    (h2 : s.escalationState = old.escalationState) :
    reconcile old s = s := by
  simp [reconcile, h1, h2]

lemma reconcile_k2Gen_none (old s : SidebarState)
    (hdep : ¬ (s.conversationId = old.conversationId
      ∧ s.escalationState = old.escalationState))
    (hcond : ¬ (¬ s.conversationId = ""
      ∧ s.escalationState = EscalationState.escalated_pending)) :
    (reconcile old s).k2Gen = none := by
  simp only [reconcile]
  split_ifs <;> simp_all

lemma resetForConversation_conversationId (s : SidebarState) :
    (resetForConversation s).conversationId = s.conversationId := by
  rw [resetForConversation]
  split <;> rfl

lemma stale_k2Result (s : SidebarState) (g : Nat) (r : Option K2StatusResponse)
    (h : ¬ s.k2Gen = some g) :
    sidebarStep s (SidebarEvent.k2Result g r) = s := by
  simp [sidebarStep, h]

lemma stale_k2Timeout (s : SidebarState) (g : Nat)
    (h : ¬ s.k2Gen = some g) :
    sidebarStep s (SidebarEvent.k2TimeoutFire g) = s := by
  simp [sidebarStep, h]

lemma stale_metricsResult (s : SidebarState) (g : Nat) (r : Option MetricsResponse)
    (now : Nat) (h : ¬ s.metricsGen = some g) :
    sidebarStep s (SidebarEvent.metricsResult g r now) = s := by
  simp [sidebarStep, h]

/-- C3: the idle → pending transition is edge-triggered. A successful
metrics poll observing total_escalations > 0 while the state is idle moves
it to escalated_pending; a poll delivered while the state is not idle
(pending or any terminal state) never changes the state, whatever the
escalation count; and on the metrics stream 0, 0, 1, 1, 2 from the idle
initial state exactly one entry into escalated_pending occurs, at the
first 1. -/
theorem escalation_edge_trigger :
    (∀ (s : SidebarState) (g : Nat) (m : MetricsResponse) (now : Nat),
      s.metricsGen = some g → s.escalationState = EscalationState.idle →
      0 < m.total_escalations →
      (sidebarStep s (SidebarEvent.metricsResult g (some m) now)).escalationState
        = EscalationState.escalated_pending)
    ∧ (∀ (s : SidebarState) (g : Nat) (m : MetricsResponse) (now : Nat),
      ¬ s.escalationState = EscalationState.idle →
      (sidebarStep s (SidebarEvent.metricsResult g (some m) now)).escalationState
        = s.escalationState)
    ∧ pendingEntries (initSidebar "c") (escStream [0, 0, 1, 1, 2]) = 1
    ∧ (runSidebar (initSidebar "c") (escStream [0, 0])).escalationState
        = EscalationState.idle
    ∧ (runSidebar (initSidebar "c") (escStream [0, 0, 1])).escalationState
        = EscalationState.escalated_pending := by
  refine ⟨?_, ?_, by decide, by decide, by decide⟩
  · intro s g m now hg hidle hpos
    simp only [sidebarStep, hg, if_true]
    rw [(reconcile_preserves s _).2.2.2.2.2.2.2.1]
    simp [applyMetrics, hidle, hpos]
  · intro s g m now hne
    by_cases hg : s.metricsGen = some g
    · simp only [sidebarStep, hg, if_true]
      rw [(reconcile_preserves s _).2.2.2.2.2.2.2.1]
      simp [applyMetrics, hne]
    · simp [sidebarStep, hg]

/-- Witness for C3 at a terminal state and a poll reporting escalations. -/
theorem escalation_edge_trigger_witness :
    (sidebarStep (initSidebar "c") (SidebarEvent.metricsResult 0 (some (escOnly 2)) 5)).escalationState
      = EscalationState.escalated_pending
    ∧ (sidebarStep
        { initSidebar "c" with escalationState := EscalationState.k2_confirmed }
        (SidebarEvent.metricsResult 0 (some (escOnly 3)) 5)).escalationState
      = EscalationState.k2_confirmed :=
  ⟨escalation_edge_trigger.1 (initSidebar "c") 0 (escOnly 2) 5 rfl rfl (by decide),
   escalation_edge_trigger.2.1
     { initSidebar "c" with escalationState := EscalationState.k2_confirmed }
     0 (escOnly 3) 5 (by decide)⟩

/-- C8: a failed metrics poll (fetch error or non-ok status) changes
nothing at all — the previously stored snapshot is retained in every field
and the mounted metrics instance (hence its interval) is untouched — and
the metrics poll schedule is the immediate call followed by one call every
METRICS_POLL_INTERVAL = 1500 ms. -/
theorem metrics_failure_retention :
    (∀ (s : SidebarState) (g now : Nat),
      sidebarStep s (SidebarEvent.metricsResult g none now) = s)
    ∧ (∀ t k, pollTimes metricsMount t k = some (t + METRICS_POLL_INTERVAL * k))
    ∧ METRICS_POLL_INTERVAL = 1500 := by
  refine ⟨?_, ?_, rfl⟩
  · intro s g now
    simp only [sidebarStep]
    split <;> rfl
  · intro t k
    cases k with
    | zero => simp [pollTimes, metricsMount]
    | succ k => simp [pollTimes, metricsMount, Nat.mul_comm]

/-- C10: while the state is escalated_pending, a K2 poll result with
status completed whose result_type is absent or unrecognized performs no
transition at all: the whole state, including the stored confidence and
explanation and the mounted polling instance, is unchanged. -/
theorem completed_without_recognized_result (s : SidebarState) (g : Nat)
    (r : K2StatusResponse)
    (hpend : s.escalationState = EscalationState.escalated_pending)
    (hst : r.status = some "completed")
    (hc : ¬ r.result_type = some "confirmed")
    (ho : ¬ r.result_type = some "overridden") :
    sidebarStep s (SidebarEvent.k2Result g (some r)) = s := by
  by_cases hg : s.k2Gen = some g
  · have happ : applyK2 r s = s := by
      rw [applyK2, if_pos hst, if_neg hc, if_neg ho]
    simp only [sidebarStep, hg, if_true, happ]
    exact reconcile_unchanged s s rfl rfl
  · simp [sidebarStep, hg]

/-- Witness for C10: a pending state receiving status completed with no
result_type. -/
theorem completed_without_recognized_result_witness :
    sidebarStep
      { initSidebar "c" with
          escalationState := EscalationState.escalated_pending,
          k2Gen := some 1, nextGen := 2 }
      (SidebarEvent.k2Result 1
        (some { status := some "completed", result_type := none,
                k2_confidence := none, k2_explanation := none }))
      = { initSidebar "c" with
          escalationState := EscalationState.escalated_pending,
          k2Gen := some 1, nextGen := 2 } :=
  completed_without_recognized_result
    { initSidebar "c" with
        escalationState := EscalationState.escalated_pending,
        k2Gen := some 1, nextGen := 2 }
    1
    { status := some "completed", result_type := none,
      k2_confidence := none, k2_explanation := none }
    rfl rfl (by decide) (by decide)

/-- C4: if the K2 timeout of the mounted instance fires while the state is
still escalated_pending, the state becomes k2_failed with the timeout
explanation and the instance is disposed (interval and timeout cleared,
k2Gen dropped); afterwards a late verification response — e.g. one
arriving at 95 s — and even a second firing of the same timer are
discarded without any state change, so failed is reached exactly once.
Conversely, if a poll response causes the terminal transition first, the
still-pending timeout's later firing is discarded: at most one of the two
causes fires. -/
theorem timeout_exclusivity (s : SidebarState) (g : Nat) (r : K2StatusResponse)
    (hpend : s.escalationState = EscalationState.escalated_pending)
    (hgen : s.k2Gen = some g) :
    (sidebarStep s (SidebarEvent.k2TimeoutFire g)).escalationState
      = EscalationState.k2_failed
    ∧ (sidebarStep s (SidebarEvent.k2TimeoutFire g)).k2Explanation
      = "K2 reasoning timed out. Heuristic result retained."
    ∧ (sidebarStep s (SidebarEvent.k2TimeoutFire g)).k2Gen = none
    ∧ sidebarStep (sidebarStep s (SidebarEvent.k2TimeoutFire g))
        (SidebarEvent.k2Result g (some r))
      = sidebarStep s (SidebarEvent.k2TimeoutFire g)
    ∧ sidebarStep (sidebarStep s (SidebarEvent.k2TimeoutFire g))
        (SidebarEvent.k2TimeoutFire g)
      = sidebarStep s (SidebarEvent.k2TimeoutFire g)
    ∧ (¬ (sidebarStep s (SidebarEvent.k2Result g (some r))).escalationState
          = EscalationState.escalated_pending →
        sidebarStep (sidebarStep s (SidebarEvent.k2Result g (some r)))
          (SidebarEvent.k2TimeoutFire g)
        = sidebarStep s (SidebarEvent.k2Result g (some r))) := by
  have hT :
      sidebarStep s (SidebarEvent.k2TimeoutFire g)
        = reconcile s
            { s with
              escalationState := EscalationState.k2_failed,
              k2Explanation := "K2 reasoning timed out. Heuristic result retained." } := by
    simp [sidebarStep, hgen]
  have hTfail : (sidebarStep s (SidebarEvent.k2TimeoutFire g)).escalationState
      = EscalationState.k2_failed := by
    rw [hT, (reconcile_preserves s _).2.2.2.2.2.2.2.1]
  have hTnone : (sidebarStep s (SidebarEvent.k2TimeoutFire g)).k2Gen = none := by
    rw [hT]
    apply reconcile_k2Gen_none
    · simp [hpend]
    · simp
  refine ⟨hTfail, ?_, hTnone, ?_, ?_, ?_⟩
  · rw [hT, (reconcile_preserves s _).2.2.2.2.2.2.2.2.2.2.1]
  · exact stale_k2Result _ g _ (by rw [hTnone]; exact fun h => Option.noConfusion h)
  · exact stale_k2Timeout _ g (by rw [hTnone]; exact fun h => Option.noConfusion h)
  · intro hne
    have hRnone : (sidebarStep s (SidebarEvent.k2Result g (some r))).k2Gen = none := by
      simp only [sidebarStep, hgen, if_true]
      by_cases hc : r.status = some "completed"
      · by_cases hc1 : r.result_type = some "confirmed"
        · rw [applyK2, if_pos hc, if_pos hc1]
          apply reconcile_k2Gen_none
          · simp [hpend]
          · simp
        · by_cases hc2 : r.result_type = some "overridden"
          · rw [applyK2, if_pos hc, if_neg hc1, if_pos hc2]
            apply reconcile_k2Gen_none
            · simp [hpend]
            · simp
          · exfalso
            apply hne
            have happ : applyK2 r s = s := by
              rw [applyK2, if_pos hc, if_neg hc1, if_neg hc2]
            simp only [sidebarStep, hgen, if_true, happ,
              reconcile_unchanged s s rfl rfl]
            exact hpend
      · by_cases hf : r.status = some "failed"
        · rw [applyK2, if_neg hc, if_pos hf]
          apply reconcile_k2Gen_none
          · simp [hpend]
          · simp
        · exfalso
          apply hne
          have happ : applyK2 r s = s := by
            rw [applyK2, if_neg hc, if_neg hf]
          simp only [sidebarStep, hgen, if_true, happ,
            reconcile_unchanged s s rfl rfl]
          exact hpend
    exact stale_k2Timeout _ g (by rw [hRnone]; exact fun h => Option.noConfusion h)

/-- Witness for C4: a pending state with mounted K2 instance 1, timed out,
then receiving a late confirmed response with confidence 0.91. -/
theorem timeout_exclusivity_witness :
    (sidebarStep
        { initSidebar "c" with
            escalationState := EscalationState.escalated_pending,
            k2Gen := some 1, nextGen := 2 }
        (SidebarEvent.k2TimeoutFire 1)).escalationState
      = EscalationState.k2_failed
    ∧ (sidebarStep
        { initSidebar "c" with
            escalationState := EscalationState.escalated_pending,
            k2Gen := some 1, nextGen := 2 }
        (SidebarEvent.k2TimeoutFire 1)).k2Explanation
      = "K2 reasoning timed out. Heuristic result retained."
    ∧ (sidebarStep
        { initSidebar "c" with
            escalationState := EscalationState.escalated_pending,
            k2Gen := some 1, nextGen := 2 }
        (SidebarEvent.k2TimeoutFire 1)).k2Gen = none
    ∧ sidebarStep
        (sidebarStep
          { initSidebar "c" with
              escalationState := EscalationState.escalated_pending,
              k2Gen := some 1, nextGen := 2 }
          (SidebarEvent.k2TimeoutFire 1))
        (SidebarEvent.k2Result 1
          (some { status := some "completed", result_type := some "confirmed",
                  k2_confidence := some (91 / 100), k2_explanation := none }))
      = sidebarStep
          { initSidebar "c" with
              escalationState := EscalationState.escalated_pending,
              k2Gen := some 1, nextGen := 2 }
          (SidebarEvent.k2TimeoutFire 1) := by
  have h := timeout_exclusivity
    { initSidebar "c" with
        escalationState := EscalationState.escalated_pending,
        k2Gen := some 1, nextGen := 2 }
    1
    { status := some "completed", result_type := some "confirmed",
      k2_confidence := some (91 / 100), k2_explanation := none }
    rfl rfl
  exact ⟨h.1, h.2.1, h.2.2.1, h.2.2.2.1⟩

lemma wf_k2Gen_none (s : SidebarState) (hwf : WellFormed s)
    (h : ¬ s.escalationState = EscalationState.escalated_pending) :
    s.k2Gen = none := by
  cases hk : s.k2Gen with
  | none => rfl
  | some gg => exact absurd (hwf.1 (by simp [hk])).1 h

lemma fresh_metricsResult_none (s : SidebarState) (g now : Nat)
    (hg : s.metricsGen = some g) :
    sidebarStep s (SidebarEvent.metricsResult g none now) = s := by
  simp [sidebarStep, hg]

lemma fresh_metricsResult_some (s : SidebarState) (g now : Nat) (m : MetricsResponse)
    (hg : s.metricsGen = some g) :
    sidebarStep s (SidebarEvent.metricsResult g (some m) now)
      = reconcile s (applyMetrics m now s) := by
  simp [sidebarStep, hg]

lemma fresh_k2Result_none (s : SidebarState) (g : Nat) (hg : s.k2Gen = some g) :
    sidebarStep s (SidebarEvent.k2Result g none) = s := by
  simp [sidebarStep, hg]

lemma fresh_k2Result_some (s : SidebarState) (g : Nat) (k : K2StatusResponse)
    (hg : s.k2Gen = some g) :
    sidebarStep s (SidebarEvent.k2Result g (some k))
      = reconcile s (applyK2 k s) := by
  simp [sidebarStep, hg]

lemma fresh_k2Timeout (s : SidebarState) (g : Nat) (hg : s.k2Gen = some g) :
    sidebarStep s (SidebarEvent.k2TimeoutFire g)
      = reconcile s
          { s with
            escalationState := EscalationState.k2_failed,
            k2Explanation := "K2 reasoning timed out. Heuristic result retained." } := by
  simp [sidebarStep, hg]

lemma urlChanged_same (s : SidebarState) (cid : String)
    (h : cid = s.conversationId) :
    sidebarStep s (SidebarEvent.urlChanged cid) = s := by
  simp [sidebarStep, h]

lemma urlChanged_new (s : SidebarState) (cid : String)
    (h : ¬ cid = s.conversationId) :
    sidebarStep s (SidebarEvent.urlChanged cid)
      = reconcile s (resetForConversation { s with conversationId := cid }) := by
  simp [sidebarStep, h]

lemma resetForConversation_id (x : SidebarState)
    (h : x.conversationId = "" ∨ x.conversationId = x.prevConversationId) :
    resetForConversation x = x := by
  rw [resetForConversation, if_pos h]

lemma resetForConversation_esc (x : SidebarState)
    (h : ¬ (x.conversationId = "" ∨ x.conversationId = x.prevConversationId)) :
    (resetForConversation x).escalationState = EscalationState.idle := by
  rw [resetForConversation, if_neg h]

lemma reconcile_applyMetrics_no_fire (m : MetricsResponse) (now : Nat)
    (s : SidebarState)
    (h : ¬ (0 < m.total_escalations
      ∧ s.escalationState = EscalationState.idle)) :
    reconcile s (applyMetrics m now s) = applyMetrics m now s
    ∧ (applyMetrics m now s).k2Gen = s.k2Gen
    ∧ (applyMetrics m now s).escalationState = s.escalationState := by
  have happ : applyMetrics m now s =
      { s with
        driftScore := m.cumulative_drift_score,
        driftVelocity := m.drift_velocity,
        isRecovering := m.is_recovering,
        activeCommitments := m.commitments_active,
        contradictions := m.contradictions_count } := by
    simp only [applyMetrics]
    exact if_neg h
  rw [happ]
  exact ⟨reconcile_unchanged s _ rfl rfl, rfl, rfl⟩

/-- C5: while the state is escalated_pending the K2 poll fires immediately
on mount and then every K2_POLL_INTERVAL = 2000 ms; a callback or response
of an instance that is no longer the mounted one (cancelled interval,
cleared timeout, unmounted closure) never changes any state; whenever a
step ends outside escalated_pending — by verification result, timeout or
conversation change — the mounted K2 instance is disposed (its interval
and timeout cleared, k2Gen dropped); and while a step stays in
escalated_pending for the same conversation the mounted instance and its
timers are retained. -/
theorem k2_poll_lifecycle :
    (∀ t k, pollTimes k2Mount t k = some (t + K2_POLL_INTERVAL * k))
    ∧ (∀ (s : SidebarState) (g : Nat), ¬ s.k2Gen = some g →
        (∀ r, sidebarStep s (SidebarEvent.k2Result g r) = s)
        ∧ sidebarStep s (SidebarEvent.k2TimeoutFire g) = s)
    ∧ (∀ (s : SidebarState) (e : SidebarEvent), WellFormed s →
        ¬ (sidebarStep s e).escalationState = EscalationState.escalated_pending →
        (sidebarStep s e).k2Gen = none)
    ∧ (∀ (s : SidebarState) (e : SidebarEvent),
        s.escalationState = EscalationState.escalated_pending →
        (sidebarStep s e).escalationState = EscalationState.escalated_pending →
        (sidebarStep s e).conversationId = s.conversationId →
        (sidebarStep s e).k2Gen = s.k2Gen) := by
  refine ⟨?_, ?_, ?_, ?_⟩
  · intro t k
    cases k with
    | zero => simp [pollTimes, k2Mount]
    | succ k => simp [pollTimes, k2Mount, Nat.mul_comm]
  · intro s g hg
    exact ⟨fun r => stale_k2Result s g r hg, stale_k2Timeout s g hg⟩
  · intro s e hwf hne
    cases e with
    | metricsResult g r now =>
      by_cases hg : s.metricsGen = some g
      · cases r with
        | none =>
          rw [fresh_metricsResult_none s g now hg] at hne ⊢
          exact wf_k2Gen_none s hwf hne
        | some m =>
          rw [fresh_metricsResult_some s g now m hg] at hne ⊢
          by_cases hfire : 0 < m.total_escalations
              ∧ s.escalationState = EscalationState.idle
          · exfalso
            apply hne
            rw [(reconcile_preserves s _).2.2.2.2.2.2.2.1]
            simp [applyMetrics, hfire.1, hfire.2]
          · obtain ⟨he, hk, hesc⟩ := reconcile_applyMetrics_no_fire m now s hfire
            rw [he, hk]
            rw [he, hesc] at hne
            exact wf_k2Gen_none s hwf hne
      · rw [stale_metricsResult s g r now hg] at hne ⊢
        exact wf_k2Gen_none s hwf hne
    | k2Result g r =>
      by_cases hg : s.k2Gen = some g
      · have hpend : s.escalationState = EscalationState.escalated_pending :=
          (hwf.1 (by simp [hg])).1
        cases r with
        | none =>
          rw [fresh_k2Result_none s g hg] at hne ⊢
          exact wf_k2Gen_none s hwf hne
        | some k =>
          rw [fresh_k2Result_some s g k hg] at hne ⊢
          by_cases hc : k.status = some "completed"
          · by_cases hc1 : k.result_type = some "confirmed"
            · rw [applyK2, if_pos hc, if_pos hc1]
              apply reconcile_k2Gen_none
              · simp [hpend]
              · simp
            · by_cases hc2 : k.result_type = some "overridden"
              · rw [applyK2, if_pos hc, if_neg hc1, if_pos hc2]
                apply reconcile_k2Gen_none
                · simp [hpend]
                · simp
              · have happ : applyK2 k s = s := by
                  rw [applyK2, if_pos hc, if_neg hc1, if_neg hc2]
                rw [happ, reconcile_unchanged s s rfl rfl] at hne ⊢
                exact wf_k2Gen_none s hwf hne
          · by_cases hf : k.status = some "failed"
            · rw [applyK2, if_neg hc, if_pos hf]
              apply reconcile_k2Gen_none
              · simp [hpend]
              · simp
            · have happ : applyK2 k s = s := by
                rw [applyK2, if_neg hc, if_neg hf]
              rw [happ, reconcile_unchanged s s rfl rfl] at hne ⊢
              exact wf_k2Gen_none s hwf hne
      · rw [stale_k2Result s g r hg] at hne ⊢
        exact wf_k2Gen_none s hwf hne
    | k2TimeoutFire g =>
      by_cases hg : s.k2Gen = some g
      · have hpend : s.escalationState = EscalationState.escalated_pending :=
          (hwf.1 (by simp [hg])).1
        rw [fresh_k2Timeout s g hg]
        apply reconcile_k2Gen_none
        · simp [hpend]
        · simp
      · rw [stale_k2Timeout s g hg] at hne ⊢
        exact wf_k2Gen_none s hwf hne
    | urlChanged cid =>
      by_cases hsame : cid = s.conversationId
      · rw [urlChanged_same s cid hsame] at hne ⊢
        exact wf_k2Gen_none s hwf hne
      · rw [urlChanged_new s cid hsame]
        by_cases hempty : cid = ""
        · rw [resetForConversation_id _ (Or.inl hempty)]
          apply reconcile_k2Gen_none
          · intro h
            exact hsame h.1
          · intro h
            exact h.1 hempty
        · by_cases hprev : cid = s.prevConversationId
          · exact absurd (hprev.trans hwf.2) hsame
          · apply reconcile_k2Gen_none
            · intro h
              have h1 := h.1
              rw [resetForConversation_conversationId] at h1
              exact hsame h1
            · intro h
              have h2 := h.2
              rw [resetForConversation_esc _
                (fun hh => hh.elim hempty hprev)] at h2
              exact EscalationState.noConfusion h2
  · intro s e hpend hstay hcid
    cases e with
    | metricsResult g r now =>
      by_cases hg : s.metricsGen = some g
      · cases r with
        | none => rw [fresh_metricsResult_none s g now hg]
        | some m =>
          have hnf : ¬ (0 < m.total_escalations
              ∧ s.escalationState = EscalationState.idle) := by
            intro hh
            rw [hpend] at hh
            exact EscalationState.noConfusion hh.2
          obtain ⟨he, hk, _⟩ := reconcile_applyMetrics_no_fire m now s hnf
          rw [fresh_metricsResult_some s g now m hg, he, hk]
      · rw [stale_metricsResult s g r now hg]
    | k2Result g r =>
      by_cases hg : s.k2Gen = some g
      · cases r with
        | none => rw [fresh_k2Result_none s g hg]
        | some k =>
          rw [fresh_k2Result_some s g k hg] at hstay ⊢
          by_cases hc : k.status = some "completed"
          · by_cases hc1 : k.result_type = some "confirmed"
            · exfalso
              rw [applyK2, if_pos hc, if_pos hc1] at hstay
              rw [(reconcile_preserves s _).2.2.2.2.2.2.2.1] at hstay
              exact EscalationState.noConfusion hstay
            · by_cases hc2 : k.result_type = some "overridden"
              · exfalso
                rw [applyK2, if_pos hc, if_neg hc1, if_pos hc2] at hstay
                rw [(reconcile_preserves s _).2.2.2.2.2.2.2.1] at hstay
                exact EscalationState.noConfusion hstay
              · have happ : applyK2 k s = s := by
                  rw [applyK2, if_pos hc, if_neg hc1, if_neg hc2]
                rw [happ, reconcile_unchanged s s rfl rfl]
          · by_cases hf : k.status = some "failed"
            · exfalso
              rw [applyK2, if_neg hc, if_pos hf] at hstay
              rw [(reconcile_preserves s _).2.2.2.2.2.2.2.1] at hstay
              exact EscalationState.noConfusion hstay
            · have happ : applyK2 k s = s := by
                rw [applyK2, if_neg hc, if_neg hf]
              rw [happ, reconcile_unchanged s s rfl rfl]
      · rw [stale_k2Result s g r hg]
    | k2TimeoutFire g =>
      by_cases hg : s.k2Gen = some g
      · exfalso
        rw [fresh_k2Timeout s g hg] at hstay
        rw [(reconcile_preserves s _).2.2.2.2.2.2.2.1] at hstay
        exact EscalationState.noConfusion hstay
      · rw [stale_k2Timeout s g hg]
    | urlChanged cid =>
      by_cases hsame : cid = s.conversationId
      · rw [urlChanged_same s cid hsame]
      · exfalso
        rw [urlChanged_new s cid hsame, (reconcile_preserves s _).1,
          resetForConversation_conversationId] at hcid
        exact hsame hcid

/-- Witness for C5: a pending state with K2 instance 1 mounted ignores a
timer of the disposed generation 0; a confirming response disposes the
instance; a metrics poll while pending leaves the instance mounted. -/
theorem k2_poll_lifecycle_witness :
    sidebarStep
      { initSidebar "c" with
          escalationState := EscalationState.escalated_pending,
          k2Gen := some 1, nextGen := 2 }
      (SidebarEvent.k2TimeoutFire 0)
      = { initSidebar "c" with
          escalationState := EscalationState.escalated_pending,
          k2Gen := some 1, nextGen := 2 }
    ∧ (sidebarStep
        { initSidebar "c" with
            escalationState := EscalationState.escalated_pending,
            k2Gen := some 1, nextGen := 2 }
        (SidebarEvent.k2Result 1
          (some { status := some "completed", result_type := some "confirmed",
                  k2_confidence := some (91 / 100), k2_explanation := none }))).k2Gen
      = none
    ∧ (sidebarStep
        { initSidebar "c" with
            escalationState := EscalationState.escalated_pending,
            k2Gen := some 1, nextGen := 2 }
        (SidebarEvent.metricsResult 0 (some (escOnly 2)) 9)).k2Gen
      = ({ initSidebar "c" with
            escalationState := EscalationState.escalated_pending,
            k2Gen := some 1, nextGen := 2 } : SidebarState).k2Gen :=
  ⟨(k2_poll_lifecycle.2.1
      { initSidebar "c" with
          escalationState := EscalationState.escalated_pending,
          k2Gen := some 1, nextGen := 2 }
      0 (by decide)).2,
   k2_poll_lifecycle.2.2.1
      { initSidebar "c" with
          escalationState := EscalationState.escalated_pending,
          k2Gen := some 1, nextGen := 2 }
      (SidebarEvent.k2Result 1
        (some { status := some "completed", result_type := some "confirmed",
                k2_confidence := some (91 / 100), k2_explanation := none }))
      ⟨fun _ => ⟨rfl, by decide⟩, rfl⟩ (by decide),
   k2_poll_lifecycle.2.2.2
      { initSidebar "c" with
          escalationState := EscalationState.escalated_pending,
          k2Gen := some 1, nextGen := 2 }
      (SidebarEvent.metricsResult 0 (some (escOnly 2)) 9)
      rfl (by decide) (by decide)⟩

lemma resetForConversation_resets (x : SidebarState)
    (h : ¬ (x.conversationId = "" ∨ x.conversationId = x.prevConversationId)) :
    (resetForConversation x).driftScore = 0
    ∧ (resetForConversation x).driftVelocity = 0
    ∧ (resetForConversation x).isRecovering = false
    ∧ (resetForConversation x).activeCommitments = 0
    ∧ (resetForConversation x).contradictions = 0
    ∧ (resetForConversation x).escalationState = EscalationState.idle
    ∧ (resetForConversation x).escalationReason = ""
    ∧ (resetForConversation x).k2Confidence = 0
    ∧ (resetForConversation x).k2Explanation = ""
    ∧ (resetForConversation x).nextGen = x.nextGen := by
  rw [resetForConversation, if_neg h]
  exact ⟨rfl, rfl, rfl, rfl, rfl, rfl, rfl, rfl, rfl, rfl⟩

lemma reconcile_metricsGen_new (old s : SidebarState)
    (h : ¬ s.conversationId = old.conversationId)
    (h2 : ¬ s.conversationId = "") :
    (reconcile old s).metricsGen = some s.nextGen := by
  simp only [reconcile]
  split_ifs <;> simp_all

/-- The two cores side by side: the Sidebar coordinator state and the
background worker's per-conversation Delivery Queue backlogs
(processingQueues, background.ts line 23), keyed by conversation id. -/
structure AppState where
  sidebar : SidebarState
  queues : List (String × List (List Nat))
  deriving Repr

/-- A change of the active conversation identity: the Sidebar receives the
new id through its navigation listener, while the background worker has no
listener for navigation at all, so processingQueues is untouched. -/
def appConversationChange (a : AppState) (cid : String) : AppState :=
  { sidebar := sidebarStep a.sidebar (SidebarEvent.urlChanged cid),
    queues := a.queues }

/-- C7: on a change of the active conversation identity, the new
conversation starts from escalation state idle with a zero-valued metrics
snapshot and a freshly mounted metrics instance, regardless of the old
conversation's state (the hypotheses allow any well-formed state,
including mid-flight escalated_pending), the old K2 instance is disposed;
and the Delivery Queue entries are untouched, so the in-flight deliveries
of the old conversation produce exactly the same traces as before. -/
theorem reset_on_conversation_change (a : AppState) (cid : String)
    (hwf : WellFormed a.sidebar)
    (hne : ¬ cid = a.sidebar.conversationId)
    (hcid : ¬ cid = "") :
    (appConversationChange a cid).sidebar.conversationId = cid
    ∧ (appConversationChange a cid).sidebar.escalationState = EscalationState.idle
    ∧ (appConversationChange a cid).sidebar.driftScore = 0
    ∧ (appConversationChange a cid).sidebar.driftVelocity = 0
    ∧ (appConversationChange a cid).sidebar.isRecovering = false
    ∧ (appConversationChange a cid).sidebar.activeCommitments = 0
    ∧ (appConversationChange a cid).sidebar.contradictions = 0
    ∧ (appConversationChange a cid).sidebar.escalationReason = ""
    ∧ (appConversationChange a cid).sidebar.k2Confidence = 0
    ∧ (appConversationChange a cid).sidebar.k2Explanation = ""
    ∧ (appConversationChange a cid).sidebar.k2Gen = none
    ∧ (appConversationChange a cid).sidebar.metricsGen = some a.sidebar.nextGen
    ∧ (appConversationChange a cid).queues = a.queues
    ∧ ∀ ok : Nat → Nat → Bool,
        (appConversationChange a cid).queues.map
          (fun q => (q.1, processConversation ok q.2))
        = a.queues.map (fun q => (q.1, processConversation ok q.2)) := by
  have hguard : ¬ (({ a.sidebar with conversationId := cid } : SidebarState).conversationId = ""
      ∨ ({ a.sidebar with conversationId := cid } : SidebarState).conversationId
        = ({ a.sidebar with conversationId := cid } : SidebarState).prevConversationId) :=
    fun hh => hh.elim hcid (fun h2 => hne (h2.trans hwf.2))
  have hstep : (appConversationChange a cid).sidebar
      = reconcile a.sidebar
          (resetForConversation { a.sidebar with conversationId := cid }) :=
    urlChanged_new a.sidebar cid hne
  have hR := resetForConversation_resets _ hguard
  have hRcid : (resetForConversation { a.sidebar with conversationId := cid }).conversationId
      = cid := resetForConversation_conversationId _
  have hP := reconcile_preserves a.sidebar
    (resetForConversation { a.sidebar with conversationId := cid })
  refine ⟨?_, ?_, ?_, ?_, ?_, ?_, ?_, ?_, ?_, ?_, ?_, ?_, rfl, fun ok => rfl⟩
  · rw [hstep, hP.1, hRcid]
  · rw [hstep, hP.2.2.2.2.2.2.2.1, hR.2.2.2.2.2.1]
  · rw [hstep, hP.2.2.1, hR.1]
  · rw [hstep, hP.2.2.2.1, hR.2.1]
  · rw [hstep, hP.2.2.2.2.1, hR.2.2.1]
  · rw [hstep, hP.2.2.2.2.2.1, hR.2.2.2.1]
  · rw [hstep, hP.2.2.2.2.2.2.1, hR.2.2.2.2.1]
  · rw [hstep, hP.2.2.2.2.2.2.2.2.1, hR.2.2.2.2.2.2.1]
  · rw [hstep, hP.2.2.2.2.2.2.2.2.2.1, hR.2.2.2.2.2.2.2.1]
  · rw [hstep, hP.2.2.2.2.2.2.2.2.2.2.1, hR.2.2.2.2.2.2.2.2.1]
  · rw [hstep]
    apply reconcile_k2Gen_none
    · intro h
      rw [hRcid] at h
      exact hne h.1
    · intro h
      rw [hR.2.2.2.2.2.1] at h
      exact EscalationState.noConfusion h.2
  · rw [hstep, reconcile_metricsGen_new a.sidebar _
      (by rw [hRcid]; exact hne) (by rw [hRcid]; exact hcid),
      hR.2.2.2.2.2.2.2.2.2]

/-- Witness for C7: conversation a mid-flight in escalated_pending with a
nonzero snapshot (drift 1.8) and a queued batch, switching to b. -/
theorem reset_on_conversation_change_witness :
    (appConversationChange
      { sidebar :=
          { initSidebar "a" with
              driftScore := (18 : ℚ) / 10,
              escalationState := EscalationState.escalated_pending,
              k2Gen := some 1, nextGen := 2 },
        queues := [("a", [[1, 2]])] }
      "b").sidebar.escalationState = EscalationState.idle
    ∧ (appConversationChange
      { sidebar :=
          { initSidebar "a" with
              driftScore := (18 : ℚ) / 10,
              escalationState := EscalationState.escalated_pending,
              k2Gen := some 1, nextGen := 2 },
        queues := [("a", [[1, 2]])] }
      "b").sidebar.driftScore = 0
    ∧ (appConversationChange
      { sidebar :=
          { initSidebar "a" with
              driftScore := (18 : ℚ) / 10,
              escalationState := EscalationState.escalated_pending,
              k2Gen := some 1, nextGen := 2 },
        queues := [("a", [[1, 2]])] }
      "b").queues = [("a", [[1, 2]])] := by
  have h := reset_on_conversation_change
    { sidebar :=
        { initSidebar "a" with
            driftScore := (18 : ℚ) / 10,
            escalationState := EscalationState.escalated_pending,
            k2Gen := some 1, nextGen := 2 },
      queues := [("a", [[1, 2]])] }
    "b" ⟨fun _ => ⟨rfl, by decide⟩, rfl⟩ (by decide) (by decide)
  exact ⟨h.2.1, h.2.2.1, h.2.2.2.2.2.2.2.2.2.2.2.2.1⟩

end Continuum
